import Mathlib

/-!
Shallow embedding of the Feller Zeptrion hub integration
(`custom_components/fellerzeptrion/hub.py` and `cover.py`).

XML handling: the Python code parses response text with
`xml.etree.ElementTree.fromstring`, which either raises `ParseError` or
yields an element tree.  We embed the tree (`Element`) and quantify over
the outcome of that parse boundary (`XmlDoc`): every input text maps to
exactly one `XmlDoc` (either `parseError` or some tree), so properties
stated for all `XmlDoc` cover all input texts.

Python-level exceptions that escape a function are modelled with
`Except PyError`; functions from which no exception can escape are plain
total functions.
-/

/-- An XML element as produced by `xml.etree.ElementTree`: tag, the text
before the first child, and the list of direct children. -/
structure Element where
  tag : String
  text : Option String
  children : List Element

/-- Outcome of `ET.fromstring` on a `str` input: either a `ParseError`
or a parsed element tree. -/
inductive XmlDoc
  | parseError
  | tree (root : Element)

/-- Exceptions that can escape the embedded functions. -/
inductive PyError
  | valueError
  | typeError
deriving DecidableEq

deriving instance DecidableEq for Except

/-- `element.find(tag)`: first direct child with the given tag. -/
def Element.findChild (e : Element) (tag : String) : Option Element :=
  e.children.find? (fun c => c.tag == tag)

/-- Python whitespace characters stripped by `str.strip()` (ASCII part). -/
def isPySpace (c : Char) : Bool :=
  c == ' ' || c == '\t' || c == '\n' || c == '\r' || c == '\x0b' || c == '\x0c'

/-- `str.strip()`: drop whitespace from both ends. -/
def pyStrip (s : String) : String :=
  ⟨((s.data.dropWhile isPySpace).reverse.dropWhile isPySpace).reverse⟩

/-- `str.replace("ch", "")` on the character list: remove every
left-to-right non-overlapping occurrence of the two-character pattern. -/
def removeChAux : List Char → List Char
  | 'c' :: 'h' :: rest => removeChAux rest
  | c :: rest => c :: removeChAux rest
  | [] => []

/-- `tag.replace("ch", "")` as used on channel tags in
`parse_channel_descriptions`. -/
def pyReplaceCh (s : String) : String :=
  ⟨removeChAux s.data⟩

def digitVal (c : Char) : Nat := c.toNat - 48

/-- Digits after the first one of a Python `int()` literal: ASCII digits
with single underscores allowed between digits. -/
def pyIntDigitsRest : List Char → Nat → Option Nat
  | [], acc => some acc
  | '_' :: c :: rest, acc =>
      if c.isDigit then pyIntDigitsRest rest (acc * 10 + digitVal c) else none
  | c :: rest, acc =>
      if c.isDigit then pyIntDigitsRest rest (acc * 10 + digitVal c) else none

/-- The unsigned digit part of a Python `int()` parse: non-empty, must
start with a digit. -/
def pyIntCore : List Char → Option Nat
  | [] => none
  | c :: rest => if c.isDigit then pyIntDigitsRest rest (digitVal c) else none

/-- Python `int(s)`: strips whitespace, optional sign, base-10 digits.
`none` models a raised `ValueError`. -/
def pyInt (s : String) : Option Int :=
  match (pyStrip s).data with
  | '+' :: rest => (pyIntCore rest).map (fun n => (n : Int))
  | '-' :: rest => (pyIntCore rest).map (fun n => -(n : Int))
  | cs => (pyIntCore cs).map (fun n => (n : Int))

/-- Python `dict` lookup (`key in d` / `d.get(key)`) on an association
list; keys are unique in the dicts the integration builds. -/
def dictGet : List (String × String) → String → Option String
  | [], _ => none
  | (k, v) :: rest, key => if k = key then some v else dictGet rest key

/-- `FellerZeptrionHub.safe_find_text(element, tag, default)`:
`found = element.find(tag) if element is not None else None;
 return found.text.strip() if found is not None and found.text else default`.
The empty string is falsy in Python, hence the `t = ""` branch. -/
def safe_find_text (element : Option Element) (tag : String)
    (default : Option String) : Option String :=
  match element with
  | none => default
  | some e =>
    match e.findChild tag with
    | none => default
    | some found =>
      match found.text with
      | none => default
      | some t => if t = "" then default else some (pyStrip t)

/- Command tokens (hub.py lines 11-15). -/
def COMMAND_ON : String := "on"
def COMMAND_OFF : String := "off"
def COMMAND_DIM_UP : String := "dim_up_200"
def COMMAND_DIM_DOWN : String := "dim_down_200"
def COMMAND_TOGGLE : String := "toggle"

def CHANNEL_DESCRIPTION_ENDPOINT : String := "/zrap/chdes"
def CHANNEL_STATES_ENDPOINT : String := "/zrap/chscan"
def SEND_COMMAND_ENDPOINT : String := "/zrap/chctrl"
def CHANNEL_NOTIFY_ENDPOINT : String := "/zrap/chnotify"
def NETWORK_INFO_ENDPOINT : String := "/zrap/net"
def DEVICE_INFO_ENDPOINT : String := "/zrap/id"

/-- `DeviceCategory.UNKNOWN` (-1).  In the Python versions Home Assistant
runs on (3.11+), `str(DeviceCategory.UNKNOWN)` is `"-1"`. -/
def DeviceCategory_UNKNOWN : Int := -1
def DeviceCategory_LIGHT : Int := 1
def DeviceCategory_BLIND : Int := 5

/-- One channel record as built by `parse_channel_descriptions`
(`{"id": ..., "name": ..., "group": ..., "category": ...}`). -/
structure Channel where
  id : String
  name : Option String
  group : Option String
  category : Int
deriving DecidableEq

/-- The `name` computed for one channel element in
`parse_channel_descriptions`:
`channel_names.get(key) if channel_names and key in channel_names
 else self.safe_find_text(channel, "name", "Unnamed")`
with `key = f"Channel \x7bch_id\x7d Name"` and
`ch_id = channel.tag.replace("ch", "")`.  (An empty dict is falsy in
Python; lookup in the empty association list fails the same way.) -/
def channel_name (channel_names : Option (List (String × String)))
    (channel : Element) : Option String :=
  match channel_names with
  | some m =>
    match dictGet m ("Channel " ++ pyReplaceCh channel.tag ++ " Name") with
    | some v => some v
    | none => safe_find_text (some channel) "name" (some "Unnamed")
  | none => safe_find_text (some channel) "name" (some "Unnamed")

/-- The body of the `for channel in raw_channels` loop of
`parse_channel_descriptions`, for one child element: `.ok none` when the
channel is skipped (category -1), `.ok (some (tag, record))` when it is
added under key `channel.tag`, `.error` when `int()` raises.
`cat = int(self.safe_find_text(channel, "cat", str(DeviceCategory.UNKNOWN)))`:
the default makes the `none` (`TypeError`) branch unreachable, and
`int()`'s `ValueError` is not caught by the surrounding
`except StdET.ParseError`. -/
def channel_record (channel_names : Option (List (String × String)))
    (channel : Element) : Except PyError (Option (String × Channel)) :=
  match safe_find_text (some channel) "cat" (some "-1") with
  | none => .error .typeError
  | some catText =>
    match pyInt catText with
    | none => .error .valueError
    | some cat =>
      if cat = DeviceCategory_UNKNOWN then .ok none
      else .ok (some (channel.tag,
        ⟨pyReplaceCh channel.tag, channel_name channel_names channel,
         safe_find_text (some channel) "group" (some "Ungrouped"), cat⟩))

/-- Python `channels[channel.tag] = record`: replace in place if the key
exists (dicts keep insertion order), otherwise append. -/
def insertReplace : List (String × Channel) → String → Channel →
    List (String × Channel)
  | [], k, v => [(k, v)]
  | (k', v') :: rest, k, v =>
      if k' = k then (k, v) :: rest else (k', v') :: insertReplace rest k v

/-- The `for` loop of `parse_channel_descriptions` over the root's
children, threading the accumulated dict. -/
def parse_channels_loop (channel_names : Option (List (String × String))) :
    List Element → List (String × Channel) →
    Except PyError (List (String × Channel))
  | [], channels => .ok channels
  | c :: rest, channels =>
    match channel_record channel_names c with
    | .error e => .error e
    | .ok none => parse_channels_loop channel_names rest channels
    | .ok (some (k, r)) =>
        parse_channels_loop channel_names rest (insertReplace channels k r)

/-- `FellerZeptrionHub.parse_channel_descriptions(xml_data, channel_names)`.
A `ParseError` from `fromstring` is caught and the (still empty) dict is
returned; a `ValueError` from `int()` inside the loop is NOT caught and
escapes (`.error`). -/
def parse_channel_descriptions (xml_data : XmlDoc)
    (channel_names : Option (List (String × String))) :
    Except PyError (List (String × Channel)) :=
  match xml_data with
  | .parseError => .ok []
  | .tree raw => parse_channels_loop channel_names raw.children []

/-- `FellerZeptrionHub.parse_channel_state(channel, channel_states)`.
The argument is the channel-states text (`none` models Python `None`,
which `get_light_state` passes through on a failed fetch: then
`fromstring(None)` raises `TypeError`, which the `except ParseError`
clause does not catch). -/
def parse_channel_state (channel : String)
    (channel_states : Option XmlDoc) : Except PyError (Option String) :=
  match channel_states with
  | none => .error .typeError
  | some .parseError => .ok none
  | some (.tree states) =>
      .ok (safe_find_text (states.findChild ("ch" ++ channel)) "val" none)

/-- `parse_device_info` result dict. -/
structure DeviceInfoRec where
  hardware_version : Option String
  serial_number : Option String
  type : Option String
  software_version : Option String
deriving DecidableEq

/-- `FellerZeptrionHub.parse_device_info(device_info)`. -/
def parse_device_info : XmlDoc → Option DeviceInfoRec
  | .parseError => none
  | .tree info =>
      some ⟨safe_find_text (some info) "hw" none,
            safe_find_text (some info) "sn" none,
            safe_find_text (some info) "type" none,
            safe_find_text (some info) "sw" none⟩

/-- `parse_network_info` result dict. -/
structure NetworkInfoRec where
  mac : Option String
deriving DecidableEq

/-- `FellerZeptrionHub.parse_network_info(network_info)`. -/
def parse_network_info : XmlDoc → Option NetworkInfoRec
  | .parseError => none
  | .tree network => some ⟨safe_find_text (some network) "mac" none⟩

/-- `FellerZeptrionHub.get_light_state(channel)`, with the fetched
channel-states text as an explicit argument (`none` = failed fetch).
`int(state)`'s `ValueError` is caught and gives `False`; the `TypeError`
raised inside `parse_channel_state` on a failed fetch escapes. -/
def get_light_state (channel : String) (channel_states : Option XmlDoc) :
    Except PyError Bool :=
  match parse_channel_state channel channel_states with
  | .error e => .error e
  | .ok none => .ok false
  | .ok (some state) =>
    match pyInt state with
    | none => .ok false
    | some v => .ok (decide (0 < v))

/-- Possible outcomes of one `aiohttp` request as seen inside
`__make_request`: an HTTP response with a status and body text, or one of
the caught fault classes (`aiohttp.ClientError`, `TimeoutError`, any
other `Exception`). -/
inductive HttpOutcome
  | response (status : Nat) (body : String)
  | clientError
  | timeoutError
  | otherError
deriving DecidableEq

/-- `FellerZeptrionHub.__make_request`: returns the body text on status
200 or 302, logs and returns `None` on any other status, and catches
every exception class, returning `None`.  No exception escapes. -/
def make_request (outcome : HttpOutcome) : Option String :=
  match outcome with
  | .response status body =>
      if status = 200 ∨ status = 302 then some body else none
  | .clientError => none
  | .timeoutError => none
  | .otherError => none

/-- One HTTP request as issued by the hub facade, in the order the
coroutines actually execute. -/
structure Request where
  method : String
  endpoint : String
  headers : List (String × String)
  body : List (String × String)
  timeout : Option Nat
deriving DecidableEq

/-- `FellerZeptrionHub.__send_command(channel, command)`:
`data = {f"cmd{channel}": command}` posted to `/zrap/chctrl`. -/
def send_command (channel command : String) : List Request :=
  [⟨"POST", SEND_COMMAND_ENDPOINT,
    [("Content-Type", "application/x-www-form-urlencoded")],
    [("cmd" ++ channel, command)], none⟩]

/-- `FellerZeptrionHub.__await_update()`: GET `/zrap/chnotify` with
`timeout=1`. -/
def await_update : List Request :=
  [⟨"GET", CHANNEL_NOTIFY_ENDPOINT, [], [], some 1⟩]

/-- `FellerZeptrionHub.turn_light_on(channel)` as its trace of HTTP
requests in execution order.  `update = self.__await_update()` only
creates the coroutine object; a bare coroutine does not run until it is
awaited (there is no `create_task`), so the command POST executes first
and the `/zrap/chnotify` GET runs afterwards, when `await update` is
reached. -/
def turn_light_on (channel : String) : List Request :=
  send_command channel COMMAND_ON ++ await_update

/-- `FellerZeptrionHub.turn_light_off(channel)`: same shape with
`COMMAND_OFF`. -/
def turn_light_off (channel : String) : List Request :=
  send_command channel COMMAND_OFF ++ await_update

/-- `FellerZeptrionHub.blind_open(channel)`. -/
def blind_open (channel : String) : List Request :=
  send_command channel COMMAND_ON

/-- `FellerZeptrionHub.blind_close(channel)`. -/
def blind_close (channel : String) : List Request :=
  send_command channel COMMAND_OFF

/-- `FellerZeptrionHub.blind_stop(channel, previous_action)`:
`if previous_action == "open": blind_close else: blind_open`. -/
def blind_stop (channel previous_action : String) : List Request :=
  if previous_action = "open" then blind_close channel else blind_open channel

/-- `FellerZeptrionHub.blind_open_tilt(channel)`. -/
def blind_open_tilt (channel : String) : List Request :=
  send_command channel COMMAND_DIM_UP

/-- `FellerZeptrionHub.blind_close_tilt(channel)`. -/
def blind_close_tilt (channel : String) : List Request :=
  send_command channel COMMAND_DIM_DOWN

/-- `FellerZeptrionHub.blind_toggle(channel)`: the source sends
`COMMAND_ON`, not `COMMAND_TOGGLE`. -/
def blind_toggle (channel : String) : List Request :=
  send_command channel COMMAND_ON

/-- The mutable state of a `FellerZeptrionBlind` entity (`cover.py`):
`self.previous_action` and `self._attr_is_closed`.  Both start as
Python `None`. -/
structure BlindState where
  previous_action : Option String
  is_closed : Option Bool
deriving DecidableEq

/-- State of a freshly constructed `FellerZeptrionBlind`. -/
def initBlindState : BlindState := ⟨none, none⟩

/-!
The cover entity methods, each as `state → (new state, requests sent)`.
The `try`/`except` in `cover.py` can never fire on its hub calls: every
hub command ends in `__make_request`, which catches all exceptions, so
the state updates after each `await` always run.
-/

/-- `FellerZeptrionBlind.async_open_cover`. -/
def async_open_cover (channel : String) (_s : BlindState) :
    BlindState × List Request :=
  (⟨some "open", some false⟩, blind_open channel)

/-- `FellerZeptrionBlind.async_close_cover`. -/
def async_close_cover (channel : String) (_s : BlindState) :
    BlindState × List Request :=
  (⟨some "close", some true⟩, blind_close channel)

/-- `FellerZeptrionBlind.async_stop_cover`: returns immediately when
`self.previous_action is None`; otherwise calls `blind_stop` with the
tracked action and resets the tracked state. -/
def async_stop_cover (channel : String) (s : BlindState) :
    BlindState × List Request :=
  match s.previous_action with
  | none => (s, [])
  | some pa => (⟨none, some false⟩, blind_stop channel pa)

/-- `FellerZeptrionBlind.async_open_cover_tilt`. -/
def async_open_cover_tilt (channel : String) (_s : BlindState) :
    BlindState × List Request :=
  (⟨none, some false⟩, blind_open_tilt channel)

/-- `FellerZeptrionBlind.async_close_cover_tilt`: returns immediately
when `self.previous_action == "close"`, sending nothing and leaving the
state untouched. -/
def async_close_cover_tilt (channel : String) (s : BlindState) :
    BlindState × List Request :=
  if s.previous_action = some "close" then (s, [])
  else (⟨none, some false⟩, blind_close_tilt channel)

/-- `FellerZeptrionBlind.toggle`. -/
def toggle (channel : String) (_s : BlindState) :
    BlindState × List Request :=
  (⟨none, some false⟩, blind_toggle channel)

/-- The cover operations a caller can invoke on one blind entity. -/
inductive CoverOp
  | openCover
  | closeCover
  | stopCover
  | openTilt
  | closeTilt
  | toggleOp
deriving DecidableEq

/-- State transition of one completed cover operation. -/
def cover_step (channel : String) (s : BlindState) : CoverOp → BlindState
  | .openCover => (async_open_cover channel s).1
  | .closeCover => (async_close_cover channel s).1
  | .stopCover => (async_stop_cover channel s).1
  | .openTilt => (async_open_cover_tilt channel s).1
  | .closeTilt => (async_close_cover_tilt channel s).1
  | .toggleOp => (toggle channel s).1

/-- Run a sequence of cover operations from a starting state. -/
def run_cover (channel : String) (ops : List CoverOp) (s : BlindState) :
    BlindState :=
  ops.foldl (cover_step channel) s

/-- Helper for stating when the tracked action is "close": the operation
history, most recent first, is a run of `closeTilt`s ending at a
`closeCover`. -/
def closeThenTilts : List CoverOp → Bool
  | CoverOp.closeCover :: _ => true
  | CoverOp.closeTilt :: rest => closeThenTilts rest
  | _ => false

/-!  Helper lemmas. -/

lemma insertReplace_mem (acc : List (String × Channel)) (k : String)
    (v : Channel) (e : String × Channel) (h : e ∈ insertReplace acc k v) :
    e = (k, v) ∨ e ∈ acc := by
  induction acc with
  | nil => simpa [insertReplace] using h
  | cons hd tl ih =>
    obtain ⟨k', v'⟩ := hd
    unfold insertReplace at h
    split at h
    · rcases List.mem_cons.mp h with h1 | h1
      · exact Or.inl h1
      · exact Or.inr (List.mem_cons_of_mem _ h1)
    · rcases List.mem_cons.mp h with h1 | h1
      · exact Or.inr (h1 ▸ List.mem_cons_self _ _)
      · rcases ih h1 with h2 | h2
        · exact Or.inl h2
        · exact Or.inr (List.mem_cons_of_mem _ h2)

lemma parse_channels_loop_mem (names : Option (List (String × String)))
    (cs : List Element) :
    ∀ acc res, parse_channels_loop names cs acc = Except.ok res →
      ∀ e, e ∈ res →
        e ∈ acc ∨ ∃ c, c ∈ cs ∧ channel_record names c = Except.ok (some e) := by
  induction cs with
  | nil =>
    intro acc res h e he
    simp only [parse_channels_loop, Except.ok.injEq] at h
    exact Or.inl (h ▸ he)
  | cons c rest ih =>
    intro acc res h e he
    unfold parse_channels_loop at h
    split at h
    · exact absurd h (by simp)
    next hrec =>
      rcases ih acc res h e he with h1 | ⟨c', hc', hrec'⟩
      · exact Or.inl h1
      · exact Or.inr ⟨c', List.mem_cons_of_mem _ hc', hrec'⟩
    next k r hrec =>
      rcases ih _ res h e he with h1 | ⟨c', hc', hrec'⟩
      · rcases insertReplace_mem acc k r e h1 with h2 | h2
        · exact Or.inr ⟨c, List.mem_cons_self _ _, h2 ▸ hrec⟩
        · exact Or.inl h2
      · exact Or.inr ⟨c', List.mem_cons_of_mem _ hc', hrec'⟩

lemma channel_record_ok_some (names : Option (List (String × String)))
    (c : Element) (k : String) (r : Channel)
    (h : channel_record names c = Except.ok (some (k, r))) :
    k = c.tag ∧ r.id = pyReplaceCh c.tag ∧ r.name = channel_name names c ∧
      r.group = safe_find_text (some c) "group" (some "Ungrouped") ∧
      r.category ≠ DeviceCategory_UNKNOWN := by
  unfold channel_record at h
  split at h
  · exact absurd h (by simp)
  split at h
  · exact absurd h (by simp)
  split at h
  · exact absurd h (by simp)
  next cat hne =>
    simp only [Except.ok.injEq, Option.some.injEq, Prod.mk.injEq] at h
    obtain ⟨hk, hr⟩ := h
    subst hk
    subst hr
    exact ⟨rfl, rfl, rfl, rfl, hne⟩

/-!  Claim theorems. -/

/-- C1: for every XML parse outcome and every (possibly absent)
name-override mapping, the mapping returned by
`parse_channel_descriptions` contains no channel whose category equals
the unknown sentinel -1: channels whose cat is absent or -1 are
skipped. -/
theorem C1_no_unknown_category (xml_data : XmlDoc)
    (channel_names : Option (List (String × String)))
    (channels : List (String × Channel))
    (h : parse_channel_descriptions xml_data channel_names =
      Except.ok channels) :
    ∀ tag r, (tag, r) ∈ channels → r.category ≠ -1 := by
  intro tag r hmem
  cases xml_data with
  | parseError =>
    simp only [parse_channel_descriptions, Except.ok.injEq] at h
    rw [← h] at hmem
    exact absurd hmem (by simp)
  | tree raw =>
    simp only [parse_channel_descriptions] at h
    rcases parse_channels_loop_mem channel_names raw.children [] channels h
        (tag, r) hmem with h1 | ⟨c, _, hrec⟩
    · exact absurd h1 (by simp)
    · exact (channel_record_ok_some channel_names c tag r hrec).2.2.2.2

/-- Witness for C1 on a concrete two-channel document: channel ch1 has
cat 1 and is kept with category ≠ -1, channel ch2 has cat -1 and is
dropped. -/
theorem C1_no_unknown_category_witness :
    (⟨"1", some "Kitchen", some "Ungrouped", 1⟩ : Channel).category ≠ -1 :=
  C1_no_unknown_category
    (XmlDoc.tree ⟨"zrap", none,
      [⟨"ch1", none, [⟨"cat", some "1", []⟩, ⟨"name", some "Kitchen", []⟩]⟩,
       ⟨"ch2", none, [⟨"cat", some "-1", []⟩]⟩]⟩)
    none
    [("ch1", ⟨"1", some "Kitchen", some "Ungrouped", 1⟩)]
    (by decide) "ch1" ⟨"1", some "Kitchen", some "Ungrouped", 1⟩ (by decide)

/-- C8: for every channel XML tree and name-override mapping, a returned
channel record whose key `Channel \x7bid\x7d Name` is present in the
overrides has exactly the override as its name, regardless of the XML's
own name element; when the key is absent (or no mapping is given), the
name is the element's name text (stripped) or "Unnamed", as computed by
`safe_find_text`. -/
theorem C8_name_override_wins (root : Element)
    (channel_names : Option (List (String × String)))
    (channels : List (String × Channel))
    (h : parse_channel_descriptions (XmlDoc.tree root) channel_names =
      Except.ok channels) :
    ∀ tag r, (tag, r) ∈ channels →
      (∀ m v, channel_names = some m →
        dictGet m ("Channel " ++ r.id ++ " Name") = some v →
        r.name = some v) ∧
      ((∀ m, channel_names = some m →
          dictGet m ("Channel " ++ r.id ++ " Name") = none) →
        ∃ c, c ∈ root.children ∧ c.tag = tag ∧
          r.name = safe_find_text (some c) "name" (some "Unnamed")) := by
  intro tag r hmem
  simp only [parse_channel_descriptions] at h
  rcases parse_channels_loop_mem channel_names root.children [] channels h
      (tag, r) hmem with h1 | ⟨c, hc, hrec⟩
  · exact absurd h1 (by simp)
  obtain ⟨hk, hid, hname, _, _⟩ :=
    channel_record_ok_some channel_names c tag r hrec
  constructor
  · intro m v hm hv
    subst hm
    rw [hid] at hv
    rw [hname]
    unfold channel_name
    dsimp only
    rw [hv]
  · intro habs
    refine ⟨c, hc, hk.symm, ?_⟩
    rw [hname]
    unfold channel_name
    cases hcn : channel_names with
    | none => rfl
    | some m =>
      rw [hid] at habs
      dsimp only
      rw [habs m hcn]

/-- C2: the cover-level stop path.  `async_stop_cover` returns
immediately, sending nothing and changing nothing, when the tracked
`previous_action` is unset; otherwise it delegates to `blind_stop`,
which sends the inverse token: "off" after an "open", "on" after a
"close". -/
theorem C2_stop_is_inverse_or_noop (channel : String) (s : BlindState) :
    (s.previous_action = none → async_stop_cover channel s = (s, [])) ∧
    (s.previous_action = some "open" →
      (async_stop_cover channel s).2 = send_command channel COMMAND_OFF) ∧
    (s.previous_action = some "close" →
      (async_stop_cover channel s).2 = send_command channel COMMAND_ON) := by
  refine ⟨?_, ?_, ?_⟩ <;> intro h <;>
    simp [async_stop_cover, h, blind_stop, blind_open, blind_close]

/-- Witness for C2: stop from the three concrete tracked states. -/
theorem C2_stop_is_inverse_or_noop_witness :
    async_stop_cover "3" ⟨none, none⟩ = (⟨none, none⟩, []) ∧
    (async_stop_cover "3" ⟨some "open", some false⟩).2 =
      send_command "3" COMMAND_OFF ∧
    (async_stop_cover "3" ⟨some "close", some true⟩).2 =
      send_command "3" COMMAND_ON :=
  ⟨(C2_stop_is_inverse_or_noop "3" ⟨none, none⟩).1 rfl,
   (C2_stop_is_inverse_or_noop "3" ⟨some "open", some false⟩).2.1 rfl,
   (C2_stop_is_inverse_or_noop "3" ⟨some "close", some true⟩).2.2 rfl⟩

/-- C3 (code-bug evidence): on the well-formed XML
`<zrap><ch1><cat>x</cat></ch1></zrap>` — whose cat text is not an
integer — `parse_channel_descriptions` lets `int()`'s `ValueError`
escape the parsing boundary (only `ET.ParseError` is caught) instead of
degrading to a mapping.  The channel-state parser, by contrast, is total
over all str inputs. -/
theorem C3_value_error_escapes :
    parse_channel_descriptions
      (XmlDoc.tree ⟨"zrap", none, [⟨"ch1", none, [⟨"cat", some "x", []⟩]⟩]⟩)
      none = Except.error PyError.valueError ∧
    (∀ channel d, ∃ v,
      parse_channel_state channel (some d) = Except.ok v) := by
  constructor
  · decide
  · intro channel d
    cases d with
    | parseError => exact ⟨none, rfl⟩
    | tree states => exact ⟨_, rfl⟩

/-- C4 (code-bug evidence): the encoded body is the single pair
`cmd\x7bchannel\x7d ↦ token`; `blind_open`/`blind_close`/
`blind_open_tilt`/`blind_close_tilt` send their fixed tokens, but
`blind_toggle` sends `COMMAND_ON` ("on") even though `COMMAND_TOGGLE`
("toggle") exists and the method's docstring says it toggles. -/
theorem C4_blind_toggle_sends_on :
    send_command "3" "on" =
      [⟨"POST", "/zrap/chctrl",
        [("Content-Type", "application/x-www-form-urlencoded")],
        [("cmd3", "on")], none⟩] ∧
    blind_open "3" = send_command "3" "on" ∧
    blind_close "3" = send_command "3" "off" ∧
    blind_open_tilt "3" = send_command "3" "dim_up_200" ∧
    blind_close_tilt "3" = send_command "3" "dim_down_200" ∧
    blind_toggle "3" = send_command "3" "on" ∧
    COMMAND_TOGGLE = "toggle" := by
  decide

/-- C5 (code-bug evidence): `get_light_state` maps value "1" to true and
"0" to false, an absent channel or a non-integer value to false — but a
failed fetch (Python `None`) reaches `ET.fromstring(None)`, which raises
`TypeError` past the `except StdET.ParseError` clause, so the error
propagates to the caller instead of yielding false. -/
theorem C5_fetch_failure_raises :
    get_light_state "1" none = Except.error PyError.typeError ∧
    get_light_state "1" (some (XmlDoc.tree
      ⟨"zrap", none, [⟨"ch1", none, [⟨"val", some "1", []⟩]⟩,
        ⟨"ch2", none, [⟨"val", some "0", []⟩]⟩,
        ⟨"ch3", none, [⟨"val", some "abc", []⟩]⟩]⟩)) = Except.ok true ∧
    get_light_state "2" (some (XmlDoc.tree
      ⟨"zrap", none, [⟨"ch1", none, [⟨"val", some "1", []⟩]⟩,
        ⟨"ch2", none, [⟨"val", some "0", []⟩]⟩,
        ⟨"ch3", none, [⟨"val", some "abc", []⟩]⟩]⟩)) = Except.ok false ∧
    get_light_state "3" (some (XmlDoc.tree
      ⟨"zrap", none, [⟨"ch1", none, [⟨"val", some "1", []⟩]⟩,
        ⟨"ch2", none, [⟨"val", some "0", []⟩]⟩,
        ⟨"ch3", none, [⟨"val", some "abc", []⟩]⟩]⟩)) = Except.ok false ∧
    get_light_state "9" (some (XmlDoc.tree
      ⟨"zrap", none, [⟨"ch1", none, [⟨"val", some "1", []⟩]⟩]⟩)) =
      Except.ok false := by
  decide

/-- C6 counterexample: in `turn_light_on` the first HTTP request that
executes is the command POST to `/zrap/chctrl` — not the `/zrap/chnotify`
notification, which only starts when `await update` runs, after the
command.  (`update = self.__await_update()` creates a bare coroutine;
without `create_task` it does not begin executing.) -/
theorem C6_command_precedes_notify :
    (turn_light_on "3").head? =
      some ⟨"POST", "/zrap/chctrl",
        [("Content-Type", "application/x-www-form-urlencoded")],
        [("cmd3", "on")], none⟩ ∧
    turn_light_on "3" =
      [⟨"POST", "/zrap/chctrl",
        [("Content-Type", "application/x-www-form-urlencoded")],
        [("cmd3", "on")], none⟩,
       ⟨"GET", "/zrap/chnotify", [], [], some 1⟩] := by
  decide

/-- C6 amended: `turn_light_on`/`turn_light_off` issue exactly two
requests, the command POST first and the `/zrap/chnotify` GET second
(the notification coroutine is created before the command but only runs
when awaited, afterwards); the notification request carries the short
timeout 1, and its failure is swallowed inside `__make_request`. -/
theorem C6_light_trace_order (channel : String) :
    (turn_light_on channel).map (fun r => (r.method, r.endpoint)) =
      [("POST", SEND_COMMAND_ENDPOINT), ("GET", CHANNEL_NOTIFY_ENDPOINT)] ∧
    (turn_light_off channel).map (fun r => (r.method, r.endpoint)) =
      [("POST", SEND_COMMAND_ENDPOINT), ("GET", CHANNEL_NOTIFY_ENDPOINT)] ∧
    (turn_light_on channel).head? = (send_command channel COMMAND_ON).head? ∧
    (turn_light_off channel).head? =
      (send_command channel COMMAND_OFF).head? ∧
    ∀ r, r ∈ turn_light_on channel → r.endpoint = CHANNEL_NOTIFY_ENDPOINT →
      r.timeout = some 1 := by
  refine ⟨rfl, rfl, rfl, rfl, ?_⟩
  intro r hr hend
  simp only [turn_light_on, send_command, await_update, List.cons_append,
    List.nil_append, List.mem_cons, List.not_mem_nil, or_false] at hr
  rcases hr with rfl | rfl
  · simp [SEND_COMMAND_ENDPOINT, CHANNEL_NOTIFY_ENDPOINT] at hend
  · rfl

/-- Witness for C6's amended theorem: the notification request in the
concrete trace for channel "3" carries timeout 1, and the trace order is
command first. -/
theorem C6_light_trace_order_witness :
    (⟨"GET", CHANNEL_NOTIFY_ENDPOINT, [], [], some 1⟩ : Request).timeout =
      some 1 ∧
    (turn_light_on "3").map (fun r => (r.method, r.endpoint)) =
      [("POST", SEND_COMMAND_ENDPOINT), ("GET", CHANNEL_NOTIFY_ENDPOINT)] :=
  ⟨(C6_light_trace_order "3").2.2.2.2 _ (by decide) rfl,
   (C6_light_trace_order "3").1⟩

/-- C7: `__make_request` yields the body unchanged exactly on status 200
or 302; any other status and every caught fault class yields `None`, and
no exception escapes (the embedding is a total function). -/
theorem C7_transport_success_iff (status : Nat) (body : String) :
    (make_request (HttpOutcome.response status body) = some body ↔
      status = 200 ∨ status = 302) ∧
    (make_request (HttpOutcome.response status body) = none ↔
      ¬(status = 200 ∨ status = 302)) ∧
    make_request HttpOutcome.clientError = none ∧
    make_request HttpOutcome.timeoutError = none ∧
    make_request HttpOutcome.otherError = none := by
  by_cases h : status = 200 ∨ status = 302 <;>
    simp [make_request, h]

/-- Witness for C7 at concrete statuses 200 and 404. -/
theorem C7_transport_success_iff_witness :
    make_request (HttpOutcome.response 200 "body") = some "body" ∧
    make_request (HttpOutcome.response 404 "err") = none :=
  ⟨(C7_transport_success_iff 200 "body").1.mpr (Or.inl rfl),
   (C7_transport_success_iff 404 "err").2.1.mpr (by decide)⟩

/-- C10: when the tracked action is "close", `async_close_cover_tilt`
returns before the `try` block: no request is sent and the whole state
(`previous_action` and `is_closed`) is untouched.  `async_open_cover_tilt`
has no such guard and always sends its tilt command. -/
theorem C10_close_tilt_noop_on_close (channel : String) (s : BlindState) :
    (s.previous_action = some "close" →
      async_close_cover_tilt channel s = (s, [])) ∧
    (async_open_cover_tilt channel s).2 =
      send_command channel COMMAND_DIM_UP := by
  constructor
  · intro h
    simp [async_close_cover_tilt, h]
  · rfl

/-- Witness for C10: concrete no-op from the state reached after a
close. -/
theorem C10_close_tilt_noop_on_close_witness :
    async_close_cover_tilt "3" ⟨some "close", some true⟩ =
      (⟨some "close", some true⟩, []) ∧
    (async_open_cover_tilt "3" ⟨some "close", some true⟩).2 =
      send_command "3" COMMAND_DIM_UP :=
  ⟨(C10_close_tilt_noop_on_close "3" ⟨some "close", some true⟩).1 rfl,
   (C10_close_tilt_noop_on_close "3" ⟨some "close", some true⟩).2⟩

lemma run_cover_concat (channel : String) (ops : List CoverOp)
    (op : CoverOp) (s : BlindState) :
    run_cover channel (ops ++ [op]) s =
      cover_step channel (run_cover channel ops s) op := by
  simp [run_cover, List.foldl_append]

lemma run_cover_pa_cases (channel : String) (ops : List CoverOp) :
    (run_cover channel ops initBlindState).previous_action = none ∨
    (run_cover channel ops initBlindState).previous_action = some "open" ∨
    (run_cover channel ops initBlindState).previous_action = some "close" := by
  induction ops using List.reverseRecOn with
  | nil => exact Or.inl rfl
  | append_singleton ops op _ =>
    rw [run_cover_concat]
    set s := run_cover channel ops initBlindState with hs
    cases op
    case openCover => exact Or.inr (Or.inl rfl)
    case closeCover => exact Or.inr (Or.inr rfl)
    case stopCover =>
      rcases hpa : s.previous_action with _ | pa <;>
        simp [cover_step, async_stop_cover, hpa]
    case openTilt => exact Or.inl rfl
    case closeTilt =>
      by_cases hpa : s.previous_action = some "close" <;>
        simp [cover_step, async_close_cover_tilt, hpa]
    case toggleOp => exact Or.inl rfl

lemma run_cover_open_iff (channel : String) (ops : List CoverOp) :
    (run_cover channel ops initBlindState).previous_action = some "open" ↔
      ops.getLast? = some CoverOp.openCover := by
  induction ops using List.reverseRecOn with
  | nil => simp [run_cover, initBlindState]
  | append_singleton ops op _ =>
    rw [run_cover_concat, List.getLast?_concat]
    set s := run_cover channel ops initBlindState with hs
    cases op
    case openCover => simp [cover_step, async_open_cover]
    case closeCover => simp [cover_step, async_close_cover]
    case stopCover =>
      rcases hpa : s.previous_action with _ | pa <;>
        simp [cover_step, async_stop_cover, hpa]
    case openTilt => simp [cover_step, async_open_cover_tilt]
    case closeTilt =>
      by_cases hpa : s.previous_action = some "close" <;>
        simp [cover_step, async_close_cover_tilt, hpa]
    case toggleOp => simp [cover_step, toggle]

lemma run_cover_close_iff (channel : String) (ops : List CoverOp) :
    (run_cover channel ops initBlindState).previous_action = some "close" ↔
      closeThenTilts ops.reverse = true := by
  induction ops using List.reverseRecOn with
  | nil => simp [run_cover, initBlindState, closeThenTilts]
  | append_singleton ops op ih =>
    rw [run_cover_concat]
    simp only [List.reverse_append, List.reverse_cons, List.reverse_nil,
      List.nil_append, List.singleton_append]
    set s := run_cover channel ops initBlindState with hs
    cases op
    case openCover => simp [cover_step, async_open_cover, closeThenTilts]
    case closeCover => simp [cover_step, async_close_cover, closeThenTilts]
    case stopCover =>
      rcases hpa : s.previous_action with _ | pa <;>
        simp [cover_step, async_stop_cover, hpa, closeThenTilts]
    case openTilt =>
      simp [cover_step, async_open_cover_tilt, closeThenTilts]
    case closeTilt =>
      by_cases hpa : s.previous_action = some "close" <;>
        simp [cover_step, async_close_cover_tilt, hpa, closeThenTilts, ← ih]
    case toggleOp => simp [cover_step, toggle, closeThenTilts]

lemma run_cover_closed_iff (channel : String) (ops : List CoverOp) :
    (run_cover channel ops initBlindState).is_closed = some true ↔
      (run_cover channel ops initBlindState).previous_action =
        some "close" := by
  induction ops using List.reverseRecOn with
  | nil => simp [run_cover, initBlindState]
  | append_singleton ops op ih =>
    rw [run_cover_concat]
    set s := run_cover channel ops initBlindState with hs
    cases op
    case openCover => simp [cover_step, async_open_cover]
    case closeCover => simp [cover_step, async_close_cover]
    case stopCover =>
      rcases hpa : s.previous_action with _ | pa
      · simpa [cover_step, async_stop_cover, hpa] using ih
      · simp [cover_step, async_stop_cover, hpa]
    case openTilt => simp [cover_step, async_open_cover_tilt]
    case closeTilt =>
      by_cases hpa : s.previous_action = some "close"
      · simpa [cover_step, async_close_cover_tilt, hpa] using ih
      · simp [cover_step, async_close_cover_tilt, hpa]
    case toggleOp => simp [cover_step, toggle]

/-- C9 counterexample: after the completed sequence close, close-tilt,
the most recent operation is the close-tilt, yet `previous_action` is
still "close" (the close-tilt was a guarded no-op, it did not reset the
tracked action to unset) and `is_closed` is still true. -/
theorem C9_close_tilt_keeps_close :
    (run_cover "3" [CoverOp.closeCover, CoverOp.closeTilt]
      initBlindState).previous_action = some "close" ∧
    (run_cover "3" [CoverOp.closeCover, CoverOp.closeTilt]
      initBlindState).is_closed = some true ∧
    [CoverOp.closeCover, CoverOp.closeTilt].getLast? =
      some CoverOp.closeTilt := by
  decide

/-- C9 amended: over every sequence of completed cover operations,
`previous_action` is always unset, "open" or "close"; it is "open"
exactly when the most recent operation was open; it is "close" exactly
when the history is a close followed only by close-tilts (stop,
open-tilt and toggle reset it to unset, and close-tilt resets it unless
it is "close", in which case close-tilt is a no-op and leaves it);
`is_closed` is true exactly when `previous_action` is "close". -/
theorem C9_tracked_state_invariant (channel : String) (ops : List CoverOp) :
    ((run_cover channel ops initBlindState).previous_action = none ∨
     (run_cover channel ops initBlindState).previous_action = some "open" ∨
     (run_cover channel ops initBlindState).previous_action =
       some "close") ∧
    ((run_cover channel ops initBlindState).previous_action = some "open" ↔
      ops.getLast? = some CoverOp.openCover) ∧
    ((run_cover channel ops initBlindState).previous_action =
        some "close" ↔ closeThenTilts ops.reverse = true) ∧
    ((run_cover channel ops initBlindState).is_closed = some true ↔
      (run_cover channel ops initBlindState).previous_action =
        some "close") :=
  ⟨run_cover_pa_cases channel ops, run_cover_open_iff channel ops,
   run_cover_close_iff channel ops, run_cover_closed_iff channel ops⟩

/-- Witness for C9's amended theorem on the concrete counterexample
history: the invariant instantiates there and yields the retained
closed-state. -/
theorem C9_tracked_state_invariant_witness :
    (run_cover "3" [CoverOp.closeCover, CoverOp.closeTilt]
      initBlindState).is_closed = some true :=
  (C9_tracked_state_invariant "3"
    [CoverOp.closeCover, CoverOp.closeTilt]).2.2.2.mpr (by decide)

/-- Witness for C8 on a concrete document whose XML name is overridden
by the mapping entry for key `Channel 3 Name`. -/
theorem C8_name_override_wins_witness :
    (⟨"3", some "Override", some "Ungrouped", 5⟩ : Channel).name =
      some "Override" :=
  (C8_name_override_wins
    ⟨"zrap", none,
      [⟨"ch3", none, [⟨"name", some "XmlName", []⟩, ⟨"cat", some "5", []⟩]⟩]⟩
    (some [("Channel 3 Name", "Override")])
    [("ch3", ⟨"3", some "Override", some "Ungrouped", 5⟩)]
    (by decide) "ch3" ⟨"3", some "Override", some "Ungrouped", 5⟩
    (by decide)).1 [("Channel 3 Name", "Override")] "Override" rfl (by decide)
